import Mathlib

/-!
# Verification of the ProbExplainer dash control panel core logic

Shallow embedding of the reactive selection/constraint engine of
`dash_probExplainer.py`: the Constraint Propagator callbacks
(`update_target_options`, `track_target_selections`, `update_r_vars_options`),
the Evidence Assignment manager (`update_evidence_values`), the Reset
Coordinator (`reset_app_state_on_dataset_change`), the Request Assembler &
Validator (`run_action`) and the model loader (`load_network`).

Each definition is translated from the corresponding Python callback.  UI
markup (styles, layout `Div`s, message texts) is elided; what is kept is the
data flowing through the `dcc.Store` components and the checkbox/dropdown
values, which is what the specification's claims are about.
-/

namespace ProbExplainer

/-- The parsed model information held in the `stored-model-info` store:
the sorted node list and, per node, its list of state labels
(`parse_network_and_store_info` builds `{'nodes': nodes_list, 'states': states_dict}`). -/
structure ModelInfo where
  nodes : List String
  states : List (String × List String)
deriving Repr, DecidableEq

/-- `states_dict.get(var, [])`: the state labels of a variable, `[]` if absent. -/
def statesOf (mi : ModelInfo) (v : String) : List String :=
  (List.lookup v mi.states).getD []

/-- The set of variables currently checked across a pattern-matched checkbox
group: each checkbox carries `[var]` when checked and `[]` when not, and the
callbacks collect the checked ones (`if checkbox_value: ...extend(checkbox_value)`). -/
def checkedVars (checkboxValues : List (List String)) : List String :=
  checkboxValues.flatten

/-- Embeds `update_evidence_values` (the Evidence Assignment manager): for each
checked evidence variable, a value dropdown is rendered whose initial value is
`var_states[0] if var_states else None`.  The result is the list of
(variable, initial dropdown value) pairs; `None` is `Option.none`. -/
def update_evidence_values (evidenceChecked : List String)
    (modelInfo : Option ModelInfo) : List (String × Option String) :=
  match modelInfo with
  | none => []
  | some mi =>
    if evidenceChecked = [] then []
    else evidenceChecked.map (fun v => (v, (statesOf mi v).head?))

/-- The outputs of `update_target_options`: the rendered pool of target
checkboxes (`available`), their initial values (`[var]` if pre-checked,
`[]` otherwise), and the new `previous-evidence-selection` store value. -/
structure TargetRender where
  pool : List String
  checkboxValues : List (List String)
  prevEvidenceOut : List String
deriving Repr, DecidableEq

/-- Embeds `update_target_options`: recomputes the Target pool
(`available = all_vars - current_evidence`) and which targets are pre-checked
(`keep_selected = (prev_targets ∩ available) ∪ (newly_available ∩ prev_targets)`
with `newly_available = prev_evidence - current_evidence`), and stores the
current evidence as the new `previous-evidence-selection`. -/
def update_target_options (modelInfo : Option ModelInfo)
    (currentEvidence prevEvidence prevTargets : List String) : TargetRender :=
  match modelInfo with
  | none => ⟨[], [], []⟩
  | some mi =>
    let available := mi.nodes.filter (fun v => decide (v ∉ currentEvidence))
    if available = [] then ⟨[], [], currentEvidence⟩
    else
      let newlyAvailable := prevEvidence.filter (fun v => decide (v ∉ currentEvidence))
      let keepSelected := fun v =>
        (v ∈ prevTargets ∧ v ∈ available) ∨ (v ∈ newlyAvailable ∧ v ∈ prevTargets)
      ⟨available,
       available.map (fun v => if keepSelected v then [v] else []),
       currentEvidence⟩

/-- Embeds `track_target_selections`: collects the currently checked target
variables into the `previous-target-selection` store
(`if checkbox_value: selected_targets.extend(checkbox_value)`). -/
def track_target_selections (targetCheckboxValues : List (List String)) : List String :=
  targetCheckboxValues.foldl (fun acc cv => if cv = [] then acc else acc ++ cv) []

/-- The outputs of `update_r_vars_options`: the rendered pool of R checkboxes,
their initial values, and the new `previous-r-selection` store value. -/
structure RRender where
  pool : List String
  checkboxValues : List (List String)
  prevROut : List String
deriving Repr, DecidableEq

/-- Embeds `update_r_vars_options`: the R pool is
`available = all_vars - (current_evidence ∪ current_targets)`, the pre-checked
subset is `keep_selected = prev_r_vars ∩ available`, and `list(keep_selected)`
is stored as the new `previous-r-selection`. -/
def update_r_vars_options (modelInfo : Option ModelInfo)
    (currentEvidence currentTargets prevR : List String) : RRender :=
  match modelInfo with
  | none => ⟨[], [], []⟩
  | some mi =>
    let available := mi.nodes.filter (fun v => decide (¬(v ∈ currentEvidence ∨ v ∈ currentTargets)))
    if available = [] then ⟨[], [], []⟩
    else
      let keepSelected := available.filter (fun v => decide (v ∈ prevR))
      ⟨available,
       available.map (fun v => if v ∈ keepSelected then [v] else []),
       keepSelected⟩

/-- The slice of app state touched by `reset_app_state_on_dataset_change`:
rendered action results, the clean flag, and the three prior-selection stores.
(The info notification it also emits is not part of the cleared state.) -/
structure ResetSlice where
  actionResults : List String
  cleanFlag : Bool
  prevEvidence : List String
  prevTarget : List String
  prevR : List String
deriving Repr, DecidableEq

/-- Embeds `reset_app_state_on_dataset_change`: when a dataset-change signal
carries an id, clear results, mark the app clean and empty the three
prior-selection stores; with no id (`None`) it raises `PreventUpdate`,
leaving the state untouched. -/
def reset_app_state_on_dataset_change (changeId : Option String)
    (s : ResetSlice) : ResetSlice :=
  match changeId with
  | some _ => ⟨[], true, [], [], []⟩
  | none => s

/-- The per-session reactive state: the loaded model information, the displayed
checked sets of the three checkbox groups, the rendered evidence-value
dropdowns, and the three prior-selection stores (the Prior-Intent Caches). -/
structure AppState where
  modelInfo : Option ModelInfo
  evidenceChecks : List String
  targetChecks : List String
  rChecks : List String
  evidenceValues : List (String × Option String)
  cacheE : List String
  cacheT : List String
  cacheR : List String
deriving Repr, DecidableEq

/-- A user interaction with one of the three checkbox groups; the payload is
the resulting checked set of that group. -/
inductive UIEvent where
  | setEvidence (checked : List String)
  | setTarget (checked : List String)
  | setR (checked : List String)
deriving Repr, DecidableEq

/-- One user interaction followed by the synchronous settling of the dash
callback graph.

* `setEvidence`: the evidence-checkbox change fires `update_evidence_values`
  (re-rendering the value dropdowns), `update_target_options` (re-rendering the
  target checkboxes and writing `previous-evidence-selection`), and
  `update_r_vars_options`.  Mounting the re-rendered target checkboxes fires
  `track_target_selections` with their fresh values (writing
  `previous-target-selection`) and fires `update_r_vars_options` again with the
  fresh target values; the second run reads the `previous-r-selection` written
  by the first.
* `setTarget`: fires `track_target_selections` and `update_r_vars_options`
  (the target container itself is not re-rendered — `update_target_options`
  listens only to evidence checkboxes).
* `setR`: no callback has the R checkbox values as an `Input` (they are only
  `State` of `run_action`), so only the displayed checked set changes. -/
def stepEvent (s : AppState) : UIEvent → AppState
  | .setEvidence e =>
    let tr := update_target_options s.modelInfo e s.cacheE s.cacheT
    let rr1 := update_r_vars_options s.modelInfo e s.targetChecks s.cacheR
    let rr2 := update_r_vars_options s.modelInfo e
      (track_target_selections tr.checkboxValues) rr1.prevROut
    { s with
      evidenceChecks := e
      evidenceValues := update_evidence_values e s.modelInfo
      targetChecks := track_target_selections tr.checkboxValues
      cacheE := tr.prevEvidenceOut
      cacheT := track_target_selections tr.checkboxValues
      rChecks := track_target_selections rr2.checkboxValues
      cacheR := rr2.prevROut }
  | .setTarget t =>
    let rr := update_r_vars_options s.modelInfo s.evidenceChecks t s.cacheR
    { s with
      targetChecks := t
      cacheT := t
      rChecks := track_target_selections rr.checkboxValues
      cacheR := rr.prevROut }
  | .setR r => { s with rChecks := r }

/-! ## Request Assembler & Validator (`run_action`) -/

/-- The catalogue the assembler validates against: the loaded Bayesian
network's variable names and, per variable, its state labels
(`bn_pya.names()` / `bn_pya.variable(...).labels()`). -/
abbrev Catalogue := List (String × List String)

/-- The state labels of a catalogue variable, `[]` if the variable is absent. -/
def statesOfCat (cat : Catalogue) (v : String) : List String :=
  (List.lookup v cat).getD []

/-- The three analysis actions offered by the `action-dropdown`. -/
inductive ActionKind where
  | posterior
  | mapIndependence
  | defeaters
deriving Repr, DecidableEq

/-- A well-formed analysis request as handed to the inference engine
(the evidence assignment and the selected variable sets). -/
inductive AnalysisRequest where
  | computePosterior (evidence : List (String × String)) (target : List String)
  | mapIndependence (evidence : List (String × String)) (target : List String)
      (r : List String)
  | getDefeaters (evidence : List (String × String)) (target : List String)
deriving Repr, DecidableEq

/-- Which required selection was missing. -/
inductive SelField where
  | target
  | r
deriving Repr, DecidableEq

/-- The outcome of one `run_action` trigger: either a specific rejection or a
dispatched request. -/
inductive RAOutcome where
  | noNetwork
  | missingSelection (f : SelField)
  | overlapEvidenceTarget
  | overlapR
  | invalidEvidence
  | dispatched (req : AnalysisRequest)
deriving Repr, DecidableEq

/-- The observable result of one `run_action` trigger: the outcome, whether
control reached the construction of the engine adapter
(`BayesianNetworkPyAgrum(bn_pya)`, line "# Create adapter"), and whether an
inference-engine call (`compute_posterior`, `maximum_a_posteriori` /
`map_independence`, `get_defeaters`) was issued. -/
structure RunResult where
  outcome : RAOutcome
  adapterConstructed : Bool
  engineInvoked : Bool
deriving Repr, DecidableEq

/-- `evidence_dict`: the evidence-value dropdown (id, value) pairs with the
`None` values dropped (`if val is not None: evidence_dict[var] = val`). -/
def buildEvidenceDict (pairs : List (String × Option String)) :
    List (String × String) :=
  pairs.filterMap (fun p => p.2.map (fun val => (p.1, val)))

/-- The evidence entries `invalid_evidence` that `run_action` flags for the
posterior action: the variable is not among the network's names, or the value
is not among that variable's labels. -/
def invalidEvidenceEntries (cat : Catalogue) (ev : List (String × String)) :
    List (String × String) :=
  ev.filter (fun p =>
    match List.lookup p.1 cat with
    | none => true
    | some states => decide (p.2 ∉ states))

/-- Embeds `run_action` (the Request Assembler & Validator).  The environment
steps between validation and dispatch — the `probExplainer` library import, the
pyAgrum network load and the adapter construction — are modelled as succeeding;
`adapterConstructed` records whether control reached the adapter construction.
The validation sequence mirrors the source: no-network check, action-specific
required-set checks, evidence/target overlap, R overlaps (MapIndependence
only), then — inside the posterior branch only, after the adapter is built —
the evidence-value domain check. -/
def run_action (storedNetwork : Option Catalogue) (action : ActionKind)
    (evidencePairs : List (String × Option String))
    (targetCheckboxValues rCheckboxValues : List (List String)) : RunResult :=
  match storedNetwork with
  | none => ⟨.noNetwork, false, false⟩
  | some cat =>
    let evidence_dict := buildEvidenceDict evidencePairs
    let target_vars := checkedVars targetCheckboxValues
    let r_vars := checkedVars rCheckboxValues
    if target_vars = [] then ⟨.missingSelection .target, false, false⟩
    else if action = .mapIndependence ∧ r_vars = [] then
      ⟨.missingSelection .r, false, false⟩
    else if (evidence_dict.map Prod.fst).filter (fun v => decide (v ∈ target_vars)) ≠ [] then
      ⟨.overlapEvidenceTarget, false, false⟩
    else if action = .mapIndependence ∧
        ((evidence_dict.map Prod.fst).filter (fun v => decide (v ∈ r_vars)) ≠ [] ∨
         target_vars.filter (fun v => decide (v ∈ r_vars)) ≠ []) then
      ⟨.overlapR, false, false⟩
    else
      match action with
      | .posterior =>
        if invalidEvidenceEntries cat evidence_dict ≠ [] then
          ⟨.invalidEvidence, true, false⟩
        else ⟨.dispatched (.computePosterior evidence_dict target_vars), true, true⟩
      | .mapIndependence =>
        ⟨.dispatched (.mapIndependence evidence_dict target_vars r_vars), true, true⟩
      | .defeaters =>
        ⟨.dispatched (.getDefeaters evidence_dict target_vars), true, true⟩

/-! ## Model loader (`load_network`) -/

/-- Notification severity (`create_info/warning/error_notification`). -/
inductive Severity where
  | info
  | warning
  | error
deriving Repr, DecidableEq

/-- A dash callback output slot: either `dash.no_update` or a written value. -/
inductive Upd (α : Type) where
  | noUpdate
  | set (a : α)
deriving Repr, DecidableEq

/-- The `stored-network` payload
(`{'network_name': ..., 'network_type': 'path'|'string', 'content': ...}`). -/
structure NetworkData where
  networkName : String
  isPath : Bool
  content : String
deriving Repr, DecidableEq

/-- What the decode/parse environment does with an uploaded file's bytes:
UTF-8 decoding fails, `BIFReader`/`get_model` raises, or parsing succeeds
yielding the model's nodes. -/
inductive ParsedUpload where
  | decodeError
  | parseError
  | parsed (nodes : List String)
deriving Repr, DecidableEq

/-- An uploaded file as seen by `load_network`: its (possibly absent) filename,
the decode/parse outcome of its contents, and the decoded BIF text (meaningful
when parsing succeeds). -/
structure UploadedFile where
  filename : Option String
  result : ParsedUpload
  bifData : String
deriving Repr, DecidableEq

/-- The state of the default network file on disk: missing
(`FileNotFoundError`), unreadable/unparsable, or valid. -/
inductive DefaultFileState where
  | missing
  | invalid
  | valid
deriving Repr, DecidableEq

/-- The four outputs of `load_network`: `stored-network`,
`notification-store` (severity only; message texts elided),
`dataset-change-detector`, `use-default-network`. -/
structure LoadOutputs where
  storedNetwork : Upd NetworkData
  notification : Option Severity
  detector : Upd String
  defaultValueOut : List String
deriving Repr, DecidableEq

/-- `filename and not filename.lower().endswith('.bif')`: the extension check
only applies when a filename is present and non-empty (Python truthiness). -/
def badExt (filename : Option String) : Bool :=
  match filename with
  | some f => f ≠ "" && !(f.toLower.endsWith ".bif")
  | none => false

/-- The hard-coded path of the default network. -/
def defaultNetworkPath : String :=
  "/var/www/html/CIGModels/backend/cigmodelsdjango/cigmodelsdjangoapp/ProbExplainer/expert_networks/network_5.bif"

/-- Embeds `load_network`: an uploaded file takes precedence; failures (bad
extension, decode error, parse error, empty network, missing/invalid default
file) return `dash.no_update` for `stored-network` and
`dataset-change-detector` together with a warning/error notification; successes
store the network and write the fresh `change_id` into the detector.  `none`
models `PreventUpdate` (neither an upload nor the default checkbox). -/
def load_network (contents : Option UploadedFile) (defaultValue : List String)
    (changeId : String) (defaultFile : DefaultFileState) : Option LoadOutputs :=
  match contents with
  | some up =>
    if badExt up.filename then
      some ⟨.noUpdate, some .warning, .noUpdate, defaultValue⟩
    else
      match up.result with
      | .decodeError => some ⟨.noUpdate, some .error, .noUpdate, defaultValue⟩
      | .parseError => some ⟨.noUpdate, some .error, .noUpdate, defaultValue⟩
      | .parsed nodes =>
        if nodes = [] then some ⟨.noUpdate, some .error, .noUpdate, defaultValue⟩
        else if nodes.length > 100 then
          some ⟨.set ⟨up.filename.getD "", false, up.bifData⟩, some .warning,
                .set changeId, []⟩
        else
          some ⟨.set ⟨up.filename.getD "", false, up.bifData⟩, none,
                .set changeId, []⟩
  | none =>
    if "default" ∈ defaultValue then
      match defaultFile with
      | .missing => some ⟨.noUpdate, some .error, .noUpdate, defaultValue⟩
      | .invalid => some ⟨.noUpdate, some .error, .noUpdate, defaultValue⟩
      | .valid =>
        some ⟨.set ⟨"network_5.bif", true, defaultNetworkPath⟩, none,
              .set changeId, defaultValue⟩
    else none

/-! ## Helper lemmas -/

/-- `track_target_selections` collects exactly the concatenation of the
checkbox values (skipping empty values changes nothing). -/
theorem track_target_selections_eq_flatten (values : List (List String)) :
    track_target_selections values = values.flatten := by
  suffices h : ∀ (l : List (List String)) (a : List String),
      l.foldl (fun acc cv => if cv = [] then acc else acc ++ cv) a = a ++ l.flatten by
    simpa using h values []
  intro l
  induction l with
  | nil => intro a; simp
  | cons cv cvs ih =>
    intro a
    by_cases h : cv = [] <;> simp [h, ih, List.append_assoc]

/-- Flattening per-element `[u]`-or-`[]` checkbox values is a filter. -/
theorem flatten_map_ite {p : String → Prop} [DecidablePred p] (l : List String) :
    (l.map (fun u => if p u then [u] else [])).flatten
      = l.filter (fun u => decide (p u)) := by
  induction l with
  | nil => rfl
  | cons x xs ih =>
    by_cases h : p x <;> simp [List.filter_cons, h, ih]

/-- The Target pool is always `all_vars − current_evidence` (the
empty-pool branch returns `[]`, which is that same filter). -/
theorem update_target_options_pool (mi : ModelInfo) (E pE pT : List String) :
    (update_target_options (some mi) E pE pT).pool
      = mi.nodes.filter (fun v => decide (v ∉ E)) := by
  simp only [update_target_options]
  by_cases h : mi.nodes.filter (fun v => decide (v ∉ E)) = []
  · rw [if_pos h]; exact h.symm
  · rw [if_neg h]

/-- The R pool is always `all_vars − (current_evidence ∪ current_targets)`. -/
theorem update_r_vars_options_pool (mi : ModelInfo) (E T pR : List String) :
    (update_r_vars_options (some mi) E T pR).pool
      = mi.nodes.filter (fun v => decide (¬(v ∈ E ∨ v ∈ T))) := by
  simp only [update_r_vars_options]
  by_cases h : mi.nodes.filter (fun v => decide (¬(v ∈ E ∨ v ∈ T))) = []
  · rw [if_pos h]; exact h.symm
  · rw [if_neg h]

/-- Membership in the freshly rendered checked Target set: a variable is
pre-checked iff it is available and was a prior target (the `newly_available`
disjunct of `keep_selected` adds nothing inside the pool). -/
theorem update_target_options_checked_iff (mi : ModelInfo) (E pE pT : List String)
    (v : String) :
    v ∈ track_target_selections
        (update_target_options (some mi) E pE pT).checkboxValues
      ↔ v ∈ mi.nodes ∧ v ∉ E ∧ v ∈ pT := by
  rw [track_target_selections_eq_flatten]
  simp only [update_target_options]
  by_cases h : mi.nodes.filter (fun v => decide (v ∉ E)) = []
  · rw [if_pos h]
    constructor
    · intro hv; exact absurd hv (by simp)
    · rintro ⟨h1, h2, h3⟩
      have hmem : v ∈ mi.nodes.filter (fun v => decide (v ∉ E)) :=
        List.mem_filter.mpr ⟨h1, by simpa using h2⟩
      rw [h] at hmem
      exact absurd hmem (by simp)
  · rw [if_neg h]
    rw [flatten_map_ite]
    constructor
    · intro hmem
      obtain ⟨hav, hkeepb⟩ := List.mem_filter.mp hmem
      have hnode := (List.mem_filter.mp hav).1
      have hnotE : v ∉ E := of_decide_eq_true (List.mem_filter.mp hav).2
      have hkeep := of_decide_eq_true hkeepb
      rcases hkeep with ⟨hT, _⟩ | ⟨_, hT⟩ <;> exact ⟨hnode, hnotE, hT⟩
    · rintro ⟨hnode, hnotE, hT⟩
      have hav : v ∈ mi.nodes.filter (fun v => decide (v ∉ E)) :=
        List.mem_filter.mpr ⟨hnode, decide_eq_true hnotE⟩
      exact List.mem_filter.mpr ⟨hav, decide_eq_true (Or.inl ⟨hT, hav⟩)⟩

/-- `previous-r-selection` is written with exactly the freshly rendered
checked R set (the computed `keep_selected`). -/
theorem update_r_vars_options_prevROut_eq_checked (mi : ModelInfo)
    (E T pR : List String) :
    (update_r_vars_options (some mi) E T pR).prevROut
      = track_target_selections (update_r_vars_options (some mi) E T pR).checkboxValues := by
  rw [track_target_selections_eq_flatten]
  simp only [update_r_vars_options]
  by_cases h : mi.nodes.filter (fun v => decide (¬(v ∈ E ∨ v ∈ T))) = []
  · rw [if_pos h]; rfl
  · rw [if_neg h]
    rw [flatten_map_ite]
    refine (List.filter_congr ?_).symm
    intro a ha
    simp only [List.mem_filter, decide_eq_true_eq] at ha
    obtain ⟨han, hae⟩ := ha
    have haE : a ∉ E := fun hc => hae (Or.inl hc)
    have haT : a ∉ T := fun hc => hae (Or.inr hc)
    simp [List.mem_filter, han, haE, haT]

/-- The `if evidence_vars = []` early return of `update_evidence_values` is
behaviorally the same as mapping over the checked variables. -/
theorem update_evidence_values_eq_map (mi : ModelInfo) (checked : List String) :
    update_evidence_values checked (some mi)
      = checked.map (fun v => (v, (statesOf mi v).head?)) := by
  by_cases h : checked = [] <;> simp [update_evidence_values, h]

/-- The domain of a rendered Evidence Assignment: the variables whose
dropdown carries an actual value (not `None`). -/
def assignmentDomain (pairs : List (String × Option String)) : List String :=
  pairs.filterMap (fun p => p.2.map (fun _ => p.1))

/-- A small three-variable catalogue used for the concrete scenarios. -/
def miABC : ModelInfo :=
  ⟨["A", "B", "C"], [("A", ["a1", "a2"]), ("B", ["b1", "b2"]), ("C", ["c1", "c2"])]⟩

/-- The settled app state right after loading `miABC`: all checkbox groups
rendered unchecked, all Prior-Intent Caches empty (the dataset-change reset
clears the caches and the re-render settles with nothing checked). -/
def appClean : AppState :=
  ⟨some miABC, [], [], [], [], [], [], []⟩

/-- A small two-variable catalogue for the assembler scenarios. -/
def catAB : Catalogue := [("A", ["x", "y"]), ("B", ["x", "y"])]

/-! ## Claim theorems -/

/-- **C2**: with a catalogue loaded, every propagation step recomputes the
Target pool as the universe of catalogue variables minus the current Evidence
selection, and the pre-checked subset as
`(priorTarget ∩ available) ∪ (freedUp ∩ priorTarget)` with
`freedUp = priorEvidence − currentEvidence`; identifiers outside the universe
are silently dropped (the trailing `v ∈ mi.nodes` conjunct) rather than
raising an error. -/
theorem target_pool_and_precheck (mi : ModelInfo) (E pE pT : List String)
    (v : String) :
    (v ∈ (update_target_options (some mi) E pE pT).pool
      ↔ v ∈ mi.nodes ∧ v ∉ E)
    ∧ (v ∈ track_target_selections
          (update_target_options (some mi) E pE pT).checkboxValues
        ↔ ((v ∈ pT ∧ v ∈ (update_target_options (some mi) E pE pT).pool)
            ∨ ((v ∈ pE ∧ v ∉ E) ∧ v ∈ pT)) ∧ v ∈ mi.nodes) := by
  constructor
  · rw [update_target_options_pool]
    simp [List.mem_filter]
  · rw [update_target_options_checked_iff, update_target_options_pool]
    simp only [List.mem_filter, decide_eq_true_eq]
    constructor
    · rintro ⟨hnode, hnotE, hT⟩
      exact ⟨Or.inl ⟨hT, hnode, hnotE⟩, hnode⟩
    · rintro ⟨⟨hT, hnode, hnotE⟩ | ⟨⟨hpE, hnotE⟩, hT⟩, hnode'⟩
      · exact ⟨hnode, hnotE, hT⟩
      · exact ⟨hnode', hnotE, hT⟩

/-- Witness for C2 at a concrete input: with catalogue `{A,B,C}`,
Evidence `{A}` and prior Target `{B}`, `B` is offered in the pool. -/
theorem target_pool_and_precheck_witness :
    "B" ∈ (update_target_options (some miABC) ["A"] [] ["B"]).pool :=
  (target_pool_and_precheck miABC ["A"] [] ["B"] "B").1.mpr (by decide)

/-- **C9**: with a catalogue loaded, the recomputed R pool is the universe of
catalogue variables minus the current Evidence selection minus the current
Target selection, i.e. exactly the Target-pool computation with the Target
selection folded into the exclusion set. -/
theorem r_pool_spec (mi : ModelInfo) (E T pR pE pT : List String) (v : String) :
    (v ∈ (update_r_vars_options (some mi) E T pR).pool
      ↔ v ∈ mi.nodes ∧ v ∉ E ∧ v ∉ T)
    ∧ (update_r_vars_options (some mi) E T pR).pool
        = (update_target_options (some mi) (E ++ T) pE pT).pool := by
  constructor
  · rw [update_r_vars_options_pool]
    simp only [List.mem_filter, decide_eq_true_eq]
    constructor
    · rintro ⟨hnode, hne⟩
      exact ⟨hnode, fun hc => hne (Or.inl hc), fun hc => hne (Or.inr hc)⟩
    · rintro ⟨hnode, hE, hT⟩
      exact ⟨hnode, fun hc => hc.elim hE hT⟩
  · rw [update_r_vars_options_pool, update_target_options_pool]
    refine List.filter_congr ?_
    intro a _
    simp [List.mem_append, decide_eq_decide]

/-- Witness for C9 at a concrete input: with Evidence `{A}` and Target `{B}`,
`C` is offered in the R pool. -/
theorem r_pool_spec_witness :
    "C" ∈ (update_r_vars_options (some miABC) ["A"] ["B"] []).pool :=
  (r_pool_spec miABC ["A"] ["B"] [] [] [] "C").1.mpr (by decide)

/-- **C4 (amended)**: after a propagation settles, the Prior-Intent Cache for
Target equals the currently checked Target set (a dedicated tracking callback
mirrors every change of the target checkboxes), but the Prior-Intent Cache for
R is written only by the R-pool recomputation, to the computed keep
(pre-checked) subset — equal to the freshly rendered checked R set — and no
callback observes the R checkboxes, so a user toggle of an R checkbox leaves
the R cache unchanged. -/
theorem prior_intent_cache_behavior (values : List (List String)) (s : AppState)
    (t e r : List String) (mi : ModelInfo) (E T pR : List String) :
    track_target_selections values = checkedVars values
    ∧ (stepEvent s (.setTarget t)).cacheT = (stepEvent s (.setTarget t)).targetChecks
    ∧ (stepEvent s (.setEvidence e)).cacheT = (stepEvent s (.setEvidence e)).targetChecks
    ∧ (update_r_vars_options (some mi) E T pR).prevROut
        = track_target_selections (update_r_vars_options (some mi) E T pR).checkboxValues
    ∧ (stepEvent s (.setR r)).cacheR = s.cacheR :=
  ⟨track_target_selections_eq_flatten values, rfl, rfl,
   update_r_vars_options_prevROut_eq_checked mi E T pR, rfl⟩

/-- **C4 counterexample**: in the settled clean state over catalogue `{A,B,C}`
the user checks `A` in the R group; no callback fires (the R checkbox values
are `State`, not `Input`, of every callback), so afterwards the currently
checked R set is `{A}` while the Prior-Intent Cache for R still holds `∅` —
the R cache does not equal the currently checked R set, and it is exactly the
last computed keep subset. -/
theorem r_cache_ignores_user_checks :
    (stepEvent appClean (.setR ["A"])).rChecks = ["A"]
    ∧ (stepEvent appClean (.setR ["A"])).cacheR = []
    ∧ (stepEvent appClean (.setR ["A"])).cacheR
        ≠ (stepEvent appClean (.setR ["A"])).rChecks := by
  refine ⟨rfl, rfl, ?_⟩
  intro h
  simp [stepEvent, appClean] at h

/-- **C3 (code behaviour at the claimed scenario)**: with catalogue `{A,B,C}`,
Target `{B}` and Evidence `∅`, checking `B` as Evidence and then immediately
unchecking it — letting the callback graph settle after each step — leaves the
Target selection empty, not `{B}`: the re-render of the target checkboxes
fires `track_target_selections`, which overwrites the prior-target cache with
the freshly rendered (empty) checked set, so the `newly_available` restore
heuristic of `update_target_options` finds no prior target to restore. -/
theorem intent_preservation_fails :
    (stepEvent appClean (.setTarget ["B"])).targetChecks = ["B"]
    ∧ (stepEvent (stepEvent appClean (.setTarget ["B"]))
        (.setEvidence ["B"])).evidenceChecks = ["B"]
    ∧ (stepEvent (stepEvent appClean (.setTarget ["B"]))
        (.setEvidence ["B"])).targetChecks = []
    ∧ (stepEvent (stepEvent (stepEvent appClean (.setTarget ["B"]))
        (.setEvidence ["B"])) (.setEvidence [])).targetChecks = [] := by
  decide

/-- Mapping the evidence dict back to its keys gives the assignment domain:
`buildEvidenceDict` keeps exactly the pairs with an actual value. -/
theorem buildEvidenceDict_fst (pairs : List (String × Option String)) :
    (buildEvidenceDict pairs).map Prod.fst = assignmentDomain pairs := by
  unfold buildEvidenceDict assignmentDomain
  rw [List.map_filterMap]
  refine List.filterMap_congr ?_
  intro p _
  cases p.2 <;> rfl

/-- **C6**: for a well-formed catalogue (every checked variable has a
non-empty state list — the spec's data-model requirement on Variables), the
domain of the Evidence Assignment rendered by `update_evidence_values` equals
the Evidence Selection Set exactly, and so does the key set of the
`evidence_dict` that `run_action` later builds from those dropdowns: entries
are created on adding a variable and deleted on removing it, with no orphaned
or missing entries once the callbacks settle. -/
theorem evidence_assignment_domain (mi : ModelInfo) (checked : List String)
    (h : ∀ v ∈ checked, statesOf mi v ≠ []) :
    assignmentDomain (update_evidence_values checked (some mi)) = checked
    ∧ (buildEvidenceDict (update_evidence_values checked (some mi))).map Prod.fst
        = checked := by
  have hdom : assignmentDomain (update_evidence_values checked (some mi)) = checked := by
    rw [update_evidence_values_eq_map]
    induction checked with
    | nil => rfl
    | cons x xs ih =>
      have hx : statesOf mi x ≠ [] := h x (List.mem_cons_self x xs)
      obtain ⟨y, ys, hys⟩ := List.exists_cons_of_ne_nil hx
      have ihx := ih (fun v hv => h v (List.mem_cons_of_mem x hv))
      simp only [List.map_cons, assignmentDomain, List.filterMap_cons] at ihx ⊢
      simp [hys, ihx]
  exact ⟨hdom, by rw [buildEvidenceDict_fst, hdom]⟩

/-- Witness for C6 at a concrete input: checking `A` over `miABC` yields an
assignment whose domain is exactly `{A}`. -/
theorem evidence_assignment_domain_witness :
    assignmentDomain (update_evidence_values ["A"] (some miABC)) = ["A"] :=
  (evidence_assignment_domain miABC ["A"] (by decide)).1

/-- **C8**: when an identifier is added to the Evidence Selection Set, its
Evidence Assignment entry is initialised to the first state label of the
variable's state list, and is left unset (`None`) when the state list is
empty. -/
theorem evidence_default_value (mi : ModelInfo) (checked : List String)
    (v : String) (hv : v ∈ checked) :
    (statesOf mi v = [] → (v, none) ∈ update_evidence_values checked (some mi))
    ∧ (∀ x xs, statesOf mi v = x :: xs
        → (v, some x) ∈ update_evidence_values checked (some mi)) := by
  rw [update_evidence_values_eq_map]
  constructor
  · intro h
    exact List.mem_map.mpr ⟨v, hv, by simp [h]⟩
  · intro x xs h
    exact List.mem_map.mpr ⟨v, hv, by simp [h]⟩

/-- Witness for C8: `A` checked over `miABC` gets default value `a1`,
the first state label of `A`. -/
theorem evidence_default_value_witness :
    ("A", some "a1") ∈ update_evidence_values ["A"] (some miABC) :=
  (evidence_default_value miABC ["A"] "A" (by decide)).2 "a1" ["a2"] (by decide)

/-- **C7**: the dataset-change reset is idempotent — applying it twice in a
row (two signals, no load in between) yields exactly the same cleared state as
applying it once: results cleared, clean flag set, and the three
prior-selection caches emptied. -/
theorem reset_idempotent (cid cid2 : String) (s : ResetSlice) :
    reset_app_state_on_dataset_change (some cid2)
        (reset_app_state_on_dataset_change (some cid) s)
      = reset_app_state_on_dataset_change (some cid) s
    ∧ reset_app_state_on_dataset_change (some cid) s
      = ⟨[], true, [], [], []⟩ :=
  ⟨rfl, rfl⟩

/-- **C1 (amended)**: for every trigger of `run_action`, validation proceeds
in the fixed order — (1) model present else `noNetwork`, (2) Target required
for all three actions and R additionally for MapIndependence else
`missingSelection`, (3) Evidence disjoint from Target else
`overlapEvidenceTarget`, (4) for MapIndependence only, R disjoint from
Evidence and Target else `overlapR` — with the first failing check
short-circuiting the rest; the evidence-value domain check (step 5) is applied
*only* for the ComputePosterior action: MapIndependence and GetDefeaters
dispatch their requests without validating evidence values. -/
theorem run_action_validation_order (cat : Catalogue) (action : ActionKind)
    (pairs : List (String × Option String)) (tvals rvals : List (List String)) :
    (run_action none action pairs tvals rvals = ⟨.noNetwork, false, false⟩)
    ∧ (checkedVars tvals = [] →
        (run_action (some cat) action pairs tvals rvals).outcome
          = .missingSelection .target)
    ∧ (checkedVars tvals ≠ [] → action = .mapIndependence → checkedVars rvals = [] →
        (run_action (some cat) action pairs tvals rvals).outcome
          = .missingSelection .r)
    ∧ (checkedVars tvals ≠ [] → (action = .mapIndependence → checkedVars rvals ≠ []) →
        ((buildEvidenceDict pairs).map Prod.fst).filter
            (fun v => decide (v ∈ checkedVars tvals)) ≠ [] →
        (run_action (some cat) action pairs tvals rvals).outcome
          = .overlapEvidenceTarget)
    ∧ (checkedVars tvals ≠ [] → checkedVars rvals ≠ [] →
        ((buildEvidenceDict pairs).map Prod.fst).filter
            (fun v => decide (v ∈ checkedVars tvals)) = [] →
        (((buildEvidenceDict pairs).map Prod.fst).filter
            (fun v => decide (v ∈ checkedVars rvals)) ≠ [] ∨
         (checkedVars tvals).filter (fun v => decide (v ∈ checkedVars rvals)) ≠ []) →
        (run_action (some cat) .mapIndependence pairs tvals rvals).outcome
          = .overlapR)
    ∧ (checkedVars tvals ≠ [] →
        ((buildEvidenceDict pairs).map Prod.fst).filter
            (fun v => decide (v ∈ checkedVars tvals)) = [] →
        invalidEvidenceEntries cat (buildEvidenceDict pairs) ≠ [] →
        (run_action (some cat) .posterior pairs tvals rvals).outcome
          = .invalidEvidence)
    ∧ (checkedVars tvals ≠ [] →
        ((buildEvidenceDict pairs).map Prod.fst).filter
            (fun v => decide (v ∈ checkedVars tvals)) = [] →
        invalidEvidenceEntries cat (buildEvidenceDict pairs) = [] →
        (run_action (some cat) .posterior pairs tvals rvals).outcome
          = .dispatched (.computePosterior (buildEvidenceDict pairs)
              (checkedVars tvals)))
    ∧ (checkedVars tvals ≠ [] → checkedVars rvals ≠ [] →
        ((buildEvidenceDict pairs).map Prod.fst).filter
            (fun v => decide (v ∈ checkedVars tvals)) = [] →
        ((buildEvidenceDict pairs).map Prod.fst).filter
            (fun v => decide (v ∈ checkedVars rvals)) = [] →
        (checkedVars tvals).filter (fun v => decide (v ∈ checkedVars rvals)) = [] →
        (run_action (some cat) .mapIndependence pairs tvals rvals).outcome
          = .dispatched (.mapIndependence (buildEvidenceDict pairs)
              (checkedVars tvals) (checkedVars rvals)))
    ∧ (checkedVars tvals ≠ [] →
        ((buildEvidenceDict pairs).map Prod.fst).filter
            (fun v => decide (v ∈ checkedVars tvals)) = [] →
        (run_action (some cat) .defeaters pairs tvals rvals).outcome
          = .dispatched (.getDefeaters (buildEvidenceDict pairs)
              (checkedVars tvals))) := by
  refine ⟨rfl, ?_, ?_, ?_, ?_, ?_, ?_, ?_, ?_⟩
  · intro h1
    simp [run_action, h1]
  · intro h1 h2 h3
    subst h2
    simp [run_action, h1, h3]
  · intro h1 h2 h3
    have h2' : ¬(action = .mapIndependence ∧ checkedVars rvals = []) :=
      fun hc => h2 hc.1 hc.2
    simp [run_action, h1, h2', h3]
  · intro h1 h2 h3 h4
    simp only [run_action]
    rw [if_neg (by simp [h1]), if_neg (by simp [h2]), if_neg (by simp [h3]),
      if_pos ⟨by simp, h4⟩]
  · intro h1 h2 h3
    simp [run_action, h1, h2, h3]
  · intro h1 h2 h3
    simp [run_action, h1, h2, h3]
  · intro h1 h2 h3 h4 h5
    simp [run_action, h1, h2, h3, h4, h5]
  · intro h1 h2
    simp [run_action, h1, h2]

/-- Witness for C1 (amended) at a concrete input: with no target selected,
the ComputePosterior trigger is rejected with the missing-Target reason. -/
theorem run_action_validation_order_witness :
    (run_action (some catAB) .posterior [("A", some "x")] [] []).outcome
      = .missingSelection .target :=
  (run_action_validation_order catAB .posterior [("A", some "x")] [] []).2.1 rfl

/-- **C1 counterexample**: for the GetDefeaters action, an out-of-domain
evidence value (`A = "bogus"` where `"bogus"` is not among `A`'s states) is
*not* rejected with the invalid-evidence reason — the request is dispatched to
the engine carrying the invalid value, so validation step 5 is not applied for
all three actions. -/
theorem step5_not_applied_for_defeaters :
    (run_action (some catAB) .defeaters [("A", some "bogus")] [["B"]] []).outcome
      = .dispatched (.getDefeaters [("A", "bogus")] ["B"])
    ∧ "bogus" ∉ statesOfCat catAB "A" := by
  decide

/-- **C5 (amended)**: the inference engine is only ever invoked on a fully
dispatched request — every rejection outcome leaves `engineInvoked = false`,
so no partial request reaches the engine and nothing is retried; rejections
from checks 1–4 (no network, missing selection, overlaps) occur before the
engine adapter is constructed, while the invalid-evidence rejection (step 5,
posterior only) occurs after the adapter has been constructed but still never
invokes the engine. -/
theorem rejection_no_dispatch (net : Option Catalogue) (action : ActionKind)
    (pairs : List (String × Option String)) (tvals rvals : List (List String)) :
    ((run_action net action pairs tvals rvals).engineInvoked = true →
        ∃ req, (run_action net action pairs tvals rvals).outcome = .dispatched req)
    ∧ ((run_action net action pairs tvals rvals).outcome = .noNetwork →
        (run_action net action pairs tvals rvals).adapterConstructed = false
        ∧ (run_action net action pairs tvals rvals).engineInvoked = false)
    ∧ (∀ f, (run_action net action pairs tvals rvals).outcome = .missingSelection f →
        (run_action net action pairs tvals rvals).adapterConstructed = false
        ∧ (run_action net action pairs tvals rvals).engineInvoked = false)
    ∧ ((run_action net action pairs tvals rvals).outcome = .overlapEvidenceTarget →
        (run_action net action pairs tvals rvals).adapterConstructed = false
        ∧ (run_action net action pairs tvals rvals).engineInvoked = false)
    ∧ ((run_action net action pairs tvals rvals).outcome = .overlapR →
        (run_action net action pairs tvals rvals).adapterConstructed = false
        ∧ (run_action net action pairs tvals rvals).engineInvoked = false)
    ∧ ((run_action net action pairs tvals rvals).outcome = .invalidEvidence →
        (run_action net action pairs tvals rvals).engineInvoked = false) := by
  cases net with
  | none => refine ⟨?_, ?_, ?_, ?_, ?_, ?_⟩ <;> simp [run_action]
  | some cat =>
    cases action <;>
      (simp only [run_action]
       split_ifs <;> refine ⟨?_, ?_, ?_, ?_, ?_, ?_⟩ <;> simp)

/-- Witness for C5 (amended) at a concrete input: a missing-Target rejection
leaves the adapter unconstructed and the engine uninvoked. -/
theorem rejection_no_dispatch_witness :
    (run_action (some catAB) .posterior [] [] []).adapterConstructed = false
    ∧ (run_action (some catAB) .posterior [] [] []).engineInvoked = false :=
  (rejection_no_dispatch (some catAB) .posterior [] [] []).2.2.1 .target (by decide)

/-- **C5 counterexample**: on a posterior trigger whose evidence value fails
the domain check (a validation failure per the spec's step 5), the engine
adapter *has* been constructed by the time the rejection is produced —
refuting “the engine adapter is never constructed … for that trigger”. -/
theorem adapter_constructed_despite_invalid_evidence :
    (run_action (some catAB) .posterior [("A", some "bogus")] [["B"]] []).outcome
      = .invalidEvidence
    ∧ (run_action (some catAB) .posterior [("A", some "bogus")] [["B"]] []).adapterConstructed
      = true := by
  decide

/-- **C10**: every failing model-load attempt — a non-`.bif` filename, bytes
that do not decode as UTF-8, a BIF string that fails to parse, a parsed
network with no nodes, or a missing/invalid default file — returns
`dash.no_update` for both the stored network and the dataset-change detector
(so the previously loaded catalogue and the current selections survive and no
reset is triggered) and emits only a warning or error notification. -/
theorem load_network_failures_no_update (up : UploadedFile) (dv : List String)
    (cid : String) (dfile : DefaultFileState) :
    (badExt up.filename = true →
        load_network (some up) dv cid dfile
          = some ⟨.noUpdate, some .warning, .noUpdate, dv⟩)
    ∧ (badExt up.filename = false → up.result = .decodeError →
        load_network (some up) dv cid dfile
          = some ⟨.noUpdate, some .error, .noUpdate, dv⟩)
    ∧ (badExt up.filename = false → up.result = .parseError →
        load_network (some up) dv cid dfile
          = some ⟨.noUpdate, some .error, .noUpdate, dv⟩)
    ∧ (badExt up.filename = false → up.result = .parsed [] →
        load_network (some up) dv cid dfile
          = some ⟨.noUpdate, some .error, .noUpdate, dv⟩)
    ∧ ("default" ∈ dv → dfile = .missing →
        load_network none dv cid dfile
          = some ⟨.noUpdate, some .error, .noUpdate, dv⟩)
    ∧ ("default" ∈ dv → dfile = .invalid →
        load_network none dv cid dfile
          = some ⟨.noUpdate, some .error, .noUpdate, dv⟩) := by
  refine ⟨?_, ?_, ?_, ?_, ?_, ?_⟩
  · intro h
    simp [load_network, h]
  · intro h h2
    simp [load_network, h, h2]
  · intro h h2
    simp [load_network, h, h2]
  · intro h h2
    simp [load_network, h, h2]
  · intro h h2
    simp [load_network, h, h2]
  · intro h h2
    simp [load_network, h, h2]

/-- Witness for C10 at a concrete input: an upload whose bytes fail UTF-8
decoding leaves both the stored network and the change detector untouched and
emits an error notification. -/
theorem load_network_failures_no_update_witness :
    load_network (some ⟨none, .decodeError, ""⟩) ["default"] "1" .valid
      = some ⟨.noUpdate, some .error, .noUpdate, ["default"]⟩ :=
  (load_network_failures_no_update ⟨none, .decodeError, ""⟩ ["default"] "1"
    .valid).2.1 rfl rfl

end ProbExplainer
